import Mathlib

/-!
Verification of the conditional-configuration / search-space resolution engine of the
ONNX quantization passes (`olive/passes/onnx/quantization.py`).

The parameter tables, the validator `validate_search_point`, the run-phase
`_run_for_config`, and the `_default_config` builders of `OnnxQuantization`,
`OnnxDynamicQuantization` and `OnnxStaticQuantization` are embedded directly from the
source file.  The generic search-parameter classes (`Categorical`, `Conditional`,
`ConditionalDefault` and their resolution, from `olive/strategy/search_parameter.py`)
and the run-configuration resolution that turns a search point into an effective
configuration live outside the provided source tree; those are modelled from the
specification (spec sections 3, 4.1 and 4.3) and are marked as such in their doc
comments.
-/

set_option autoImplicit false

namespace OliveQuant

mutual

/-- A configuration value: a semantic-typed scalar, a mapping, an external enum member,
or one of the two reserved sentinel outcomes `INVALID` and `IGNORED` (spec section 3;
the sentinels are carried as values but never as ordinary data). `vEnum` models a member
of an external-library enumeration (`QuantType`, `QuantFormat`, `CalibrationMethod`)
produced at the resolved-configuration boundary. -/
inductive Value where
  | vStr (s : String)
  | vBool (b : Bool)
  | vInt (n : Int)
  | vNone
  | vInvalid
  | vIgnored
  | vDict (entries : Entries)
  | vEnum (enum : String) (member : String)
  deriving Repr

/-- The entry list of a dictionary value: insertion-ordered key/value pairs (a Python
`dict`), declared mutually with `Value` so that every definition over values stays
structurally recursive. -/
inductive Entries where
  | nil
  | cons (k : String) (v : Value) (rest : Entries)
  deriving Repr

end

mutual

/-- Decidable structural equality of values (Python `==` on the modelled values);
written by hand because the automatic derivation does not support mutual inductive
types. -/
def Value.decEq : (a b : Value) → Decidable (a = b)
  | .vStr a, .vStr b =>
    match String.decEq a b with
    | isTrue h => isTrue (congrArg Value.vStr h)
    | isFalse h => isFalse (fun hh => h (Value.vStr.inj hh))
  | .vBool a, .vBool b =>
    match Bool.decEq a b with
    | isTrue h => isTrue (congrArg Value.vBool h)
    | isFalse h => isFalse (fun hh => h (Value.vBool.inj hh))
  | .vInt a, .vInt b =>
    match Int.decEq a b with
    | isTrue h => isTrue (congrArg Value.vInt h)
    | isFalse h => isFalse (fun hh => h (Value.vInt.inj hh))
  | .vNone, .vNone => isTrue rfl
  | .vInvalid, .vInvalid => isTrue rfl
  | .vIgnored, .vIgnored => isTrue rfl
  | .vDict a, .vDict b =>
    match Entries.decEq a b with
    | isTrue h => isTrue (congrArg Value.vDict h)
    | isFalse h => isFalse (fun hh => h (Value.vDict.inj hh))
  | .vEnum e1 m1, .vEnum e2 m2 =>
    match String.decEq e1 e2, String.decEq m1 m2 with
    | isTrue h1, isTrue h2 => isTrue (by rw [h1, h2])
    | isFalse h1, _ => isFalse (fun hh => h1 (Value.vEnum.inj hh).1)
    | _, isFalse h2 => isFalse (fun hh => h2 (Value.vEnum.inj hh).2)
  | .vStr _, .vBool _ => isFalse (fun h => Value.noConfusion h)
  | .vStr _, .vInt _ => isFalse (fun h => Value.noConfusion h)
  | .vStr _, .vNone => isFalse (fun h => Value.noConfusion h)
  | .vStr _, .vInvalid => isFalse (fun h => Value.noConfusion h)
  | .vStr _, .vIgnored => isFalse (fun h => Value.noConfusion h)
  | .vStr _, .vDict _ => isFalse (fun h => Value.noConfusion h)
  | .vStr _, .vEnum _ _ => isFalse (fun h => Value.noConfusion h)
  | .vBool _, .vStr _ => isFalse (fun h => Value.noConfusion h)
  | .vBool _, .vInt _ => isFalse (fun h => Value.noConfusion h)
  | .vBool _, .vNone => isFalse (fun h => Value.noConfusion h)
  | .vBool _, .vInvalid => isFalse (fun h => Value.noConfusion h)
  | .vBool _, .vIgnored => isFalse (fun h => Value.noConfusion h)
  | .vBool _, .vDict _ => isFalse (fun h => Value.noConfusion h)
  | .vBool _, .vEnum _ _ => isFalse (fun h => Value.noConfusion h)
  | .vInt _, .vStr _ => isFalse (fun h => Value.noConfusion h)
  | .vInt _, .vBool _ => isFalse (fun h => Value.noConfusion h)
  | .vInt _, .vNone => isFalse (fun h => Value.noConfusion h)
  | .vInt _, .vInvalid => isFalse (fun h => Value.noConfusion h)
  | .vInt _, .vIgnored => isFalse (fun h => Value.noConfusion h)
  | .vInt _, .vDict _ => isFalse (fun h => Value.noConfusion h)
  | .vInt _, .vEnum _ _ => isFalse (fun h => Value.noConfusion h)
  | .vNone, .vStr _ => isFalse (fun h => Value.noConfusion h)
  | .vNone, .vBool _ => isFalse (fun h => Value.noConfusion h)
  | .vNone, .vInt _ => isFalse (fun h => Value.noConfusion h)
  | .vNone, .vInvalid => isFalse (fun h => Value.noConfusion h)
  | .vNone, .vIgnored => isFalse (fun h => Value.noConfusion h)
  | .vNone, .vDict _ => isFalse (fun h => Value.noConfusion h)
  | .vNone, .vEnum _ _ => isFalse (fun h => Value.noConfusion h)
  | .vInvalid, .vStr _ => isFalse (fun h => Value.noConfusion h)
  | .vInvalid, .vBool _ => isFalse (fun h => Value.noConfusion h)
  | .vInvalid, .vInt _ => isFalse (fun h => Value.noConfusion h)
  | .vInvalid, .vNone => isFalse (fun h => Value.noConfusion h)
  | .vInvalid, .vIgnored => isFalse (fun h => Value.noConfusion h)
  | .vInvalid, .vDict _ => isFalse (fun h => Value.noConfusion h)
  | .vInvalid, .vEnum _ _ => isFalse (fun h => Value.noConfusion h)
  | .vIgnored, .vStr _ => isFalse (fun h => Value.noConfusion h)
  | .vIgnored, .vBool _ => isFalse (fun h => Value.noConfusion h)
  | .vIgnored, .vInt _ => isFalse (fun h => Value.noConfusion h)
  | .vIgnored, .vNone => isFalse (fun h => Value.noConfusion h)
  | .vIgnored, .vInvalid => isFalse (fun h => Value.noConfusion h)
  | .vIgnored, .vDict _ => isFalse (fun h => Value.noConfusion h)
  | .vIgnored, .vEnum _ _ => isFalse (fun h => Value.noConfusion h)
  | .vDict _, .vStr _ => isFalse (fun h => Value.noConfusion h)
  | .vDict _, .vBool _ => isFalse (fun h => Value.noConfusion h)
  | .vDict _, .vInt _ => isFalse (fun h => Value.noConfusion h)
  | .vDict _, .vNone => isFalse (fun h => Value.noConfusion h)
  | .vDict _, .vInvalid => isFalse (fun h => Value.noConfusion h)
  | .vDict _, .vIgnored => isFalse (fun h => Value.noConfusion h)
  | .vDict _, .vEnum _ _ => isFalse (fun h => Value.noConfusion h)
  | .vEnum _ _, .vStr _ => isFalse (fun h => Value.noConfusion h)
  | .vEnum _ _, .vBool _ => isFalse (fun h => Value.noConfusion h)
  | .vEnum _ _, .vInt _ => isFalse (fun h => Value.noConfusion h)
  | .vEnum _ _, .vNone => isFalse (fun h => Value.noConfusion h)
  | .vEnum _ _, .vInvalid => isFalse (fun h => Value.noConfusion h)
  | .vEnum _ _, .vIgnored => isFalse (fun h => Value.noConfusion h)
  | .vEnum _ _, .vDict _ => isFalse (fun h => Value.noConfusion h)

/-- Decidable structural equality of dictionary entry lists, entrywise and in order. -/
def Entries.decEq : (a b : Entries) → Decidable (a = b)
  | .nil, .nil => isTrue rfl
  | .nil, .cons _ _ _ => isFalse (fun h => Entries.noConfusion h)
  | .cons _ _ _, .nil => isFalse (fun h => Entries.noConfusion h)
  | .cons k1 v1 r1, .cons k2 v2 r2 =>
    match String.decEq k1 k2, Value.decEq v1 v2, Entries.decEq r1 r2 with
    | isTrue h1, isTrue h2, isTrue h3 => isTrue (by rw [h1, h2, h3])
    | isFalse h1, _, _ =>
      isFalse (by intro hh; injection hh with hh1 hh2 hh3; exact h1 hh1)
    | _, isFalse h2, _ =>
      isFalse (by intro hh; injection hh with hh1 hh2 hh3; exact h2 hh2)
    | _, _, isFalse h3 =>
      isFalse (by intro hh; injection hh with hh1 hh2 hh3; exact h3 hh3)

end

instance instDecEqValue : DecidableEq Value := Value.decEq

instance instDecEqEntries : DecidableEq Entries := Entries.decEq

/-- The keys of a dictionary value, in insertion order. -/
def Entries.keys : Entries → List String
  | .nil => []
  | .cons k _ rest => k :: rest.keys

/-- First-match lookup in a dictionary value (Python `dict.__getitem__`). -/
def Entries.get : Entries → String → Option Value
  | .nil, _ => none
  | .cons k v rest, key => if k == key then some v else rest.get key

/-- Python `dict` assignment on a dictionary value: update the existing entry in
place, otherwise append. -/
def Entries.set : Entries → String → Value → Entries
  | .nil, key, val => .cons key val .nil
  | .cons k v rest, key, val =>
    if k == key then .cons k val rest else .cons k v (rest.set key val)

/-- Whether a dictionary value has no entries (a Python dict is falsy iff empty). -/
def Entries.isEmpty : Entries → Bool
  | .nil => true
  | .cons _ _ _ => false

/-- Build a dictionary value from a key/value list. -/
def Entries.ofList : List (String × Value) → Entries
  | [] => .nil
  | (k, v) :: rest => .cons k v (Entries.ofList rest)

/-- Python truthiness for the values we model: `None`, `False`, `0`, `""` and the empty
dict are falsy, everything else is truthy. The sentinels are plain (truthy) objects. -/
def truthy : Value → Bool
  | .vStr s => !(s == "")
  | .vBool b => b
  | .vInt n => !(n == 0)
  | .vNone => false
  | .vInvalid => true
  | .vIgnored => true
  | .vDict es => !es.isEmpty
  | .vEnum _ _ => true

/-- A configuration / search point: an insertion-ordered mapping from parameter names to
values, modelled as an association list without duplicate keys (Python `dict`). -/
abbrev Config : Type := List (String × Value)

/-- First-match lookup (Python `dict.__getitem__`, as an `Option`). -/
def lookupV : Config → String → Option Value
  | [], _ => none
  | (k, v) :: rest, key => if k == key then some v else lookupV rest key

/-- Python `dict` assignment: update the existing entry in place, otherwise append. -/
def dictSet : Config → String → Value → Config
  | [], key, val => [(key, val)]
  | (k, v) :: rest, key, val =>
    if k == key then (k, val) :: rest else (k, v) :: dictSet rest key val

/-- Python `del dict[key]` restricted to a present key; removing an absent key is the
identity (callers below only delete guarded by membership, `if key in run_config`). -/
def dictDel : Config → String → Config
  | [], _ => []
  | (k, v) :: rest, key => if k == key then rest else (k, v) :: dictDel rest key

/-- The keys of a configuration, in insertion order. -/
def keysOf (c : Config) : List String := c.map Prod.fst

example : lookupV [("a", .vInt 1), ("b", .vBool true)] "b" = some (.vBool true) := rfl
example : dictSet [("a", .vInt 1)] "a" (.vInt 2) = [("a", .vInt 2)] := rfl
example : dictDel [("a", .vInt 1), ("b", .vNone)] "a" = [("b", .vNone)] := rfl

mutual

/-- Modelled from the spec: the `SearchValue` variants of `olive/strategy/search_parameter.py`
(not under `src/`), spec section 3.  `categorical` is an enumerated value set, `conditional`
is a lookup table keyed by an ordered tuple of parent parameter values with a fall-back
branch, and `invalidChoice` / `ignoredChoice` are the branches produced by
`Conditional.get_invalid_choice()` / `Conditional.get_ignored_choice()` whose resolution is
the reserved `INVALID` / `IGNORED` sentinel outcome. -/
inductive SearchParameter where
  | categorical (choices : List Value)
  | conditional (parents : List String) (support : SPSupport) (dflt : SearchParameter)
  | invalidChoice
  | ignoredChoice
  deriving Repr

/-- A conditional's support table: ordered entries mapping an exact tuple of parent
values to a branch (spec section 3), declared mutually with `SearchParameter` so that
resolution stays structurally recursive. -/
inductive SPSupport where
  | nil
  | cons (key : List Value) (branch : SearchParameter) (rest : SPSupport)
  deriving Repr

end

/-- Build a support table from an entry list. -/
def SPSupport.ofList : List (List Value × SearchParameter) → SPSupport
  | [] => .nil
  | (k, b) :: rest => .cons k b (SPSupport.ofList rest)

/-- Prepend a fixed leading value to every support key (the source's
`("static", *key)` expansion of lines 282-285). -/
def SPSupport.prependKey (v : Value) : SPSupport → SPSupport
  | .nil => .nil
  | .cons k b rest => .cons (v :: k) b (rest.prependKey v)

/-- Modelled from the spec: `Boolean()` is the categorical search space over the two
booleans (spec section 3 treats it as a `Categorical`). -/
def BooleanParam : SearchParameter := .categorical [.vBool true, .vBool false]

/-- `Conditional.get_invalid_choice()` of the missing `search_parameter` module: the
branch declaring its parent combination an illegal configuration point. -/
def Conditional.get_invalid_choice : SearchParameter := .invalidChoice

/-- `Conditional.get_ignored_choice()` of the missing `search_parameter` module: the
branch declaring the parameter irrelevant under its parent combination. -/
def Conditional.get_ignored_choice : SearchParameter := .ignoredChoice

mutual

/-- Modelled from the spec: a parameter's default-value expression (spec section 3).
`plain v` is an ordinary fixed default; `conditional` is a `ConditionalDefault` of the
missing `search_parameter` module, keyed by parent values with an implicit `IGNORED`
fall-back when no support key matches (spec section 4.1 step 3 with the
`default: IGNORED` case).  The `IGNORED` / `INVALID` sentinels appear as the `plain`
payloads `Value.vIgnored` / `Value.vInvalid`. -/
inductive DefaultExpr where
  | plain (v : Value)
  | conditional (parents : List String) (support : DSupport)
  deriving Repr

/-- A conditional default's support table, declared mutually with `DefaultExpr` so
that resolution stays structurally recursive. -/
inductive DSupport where
  | nil
  | cons (key : List Value) (branch : DefaultExpr) (rest : DSupport)
  deriving Repr

end

/-- Build a default-support table from an entry list. -/
def DSupport.ofList : List (List Value × DefaultExpr) → DSupport
  | [] => .nil
  | (k, b) :: rest => .cons k b (DSupport.ofList rest)

/-- `ConditionalDefault.get_ignored_choice()` of the missing `search_parameter` module. -/
def ConditionalDefault.get_ignored_choice : DefaultExpr := .plain .vIgnored

/-- Resolution outcome of a search-space expression under a search point
(spec section 4.1, `resolve_allowed`): the concrete allowed set, the `INVALID`
sentinel tagged with the conditional parents and the blocking parent-value
combination that selected it, or the `IGNORED` sentinel. -/
inductive AllowedOutcome where
  | choices (vs : List Value)
  | invalid (parents : List String) (key : List Value)
  | ignored
  deriving Repr

mutual

/-- Modelled from the spec: resolution of a search-space expression against a search
point (spec section 4.1).  A conditional reads each parent's current value from the
point in parent order, looks the tuple up in `support` by exact equality, falls back to
the declared default branch otherwise, and recurses; an `INVALID` leaf is propagated
upward unchanged, tagged at the conditional that declared it with the blocking parent
combination (spec section 4.3 step 3 reports that combination). -/
def resolveSearchParameter (point : Config) : SearchParameter → AllowedOutcome
  | .categorical vs => .choices vs
  | .invalidChoice => .invalid [] []
  | .ignoredChoice => .ignored
  | .conditional parents support dflt =>
    let key := parents.map fun p => (lookupV point p).getD .vNone
    match resolveSupportBranch point key support with
    | some (.invalid [] []) => .invalid parents key
    | some r => r
    | none =>
      match resolveSearchParameter point dflt with
      | .invalid [] [] => .invalid parents key
      | r => r

/-- Resolve the support branch whose key equals the computed parent tuple — exact
tuple equality, first match in declaration order — or `none` when no key matches. -/
def resolveSupportBranch (point : Config) (key : List Value) :
    SPSupport → Option AllowedOutcome
  | .nil => none
  | .cons k branch rest =>
    if k == key then some (resolveSearchParameter point branch)
    else resolveSupportBranch point key rest

end

/-- Resolution outcome of a default-value expression under a search point
(spec section 4.1, `resolve_default`). -/
inductive DefaultOutcome where
  | val (v : Value)
  | invalid (parents : List String) (key : List Value)
  | ignored
  deriving Repr

mutual

/-- Modelled from the spec: resolution of a default-value expression against a search
point (spec section 4.1).  A `ConditionalDefault` reads the parents' current values,
looks the tuple up by exact equality and recurses into the matching branch, falling
back to the `IGNORED` outcome when no key matches; sentinel payloads resolve to the
corresponding sentinel outcome, with `INVALID` tagged with the blocking parent
combination at the conditional that declared it. -/
def resolveDefaultExpr (point : Config) : DefaultExpr → DefaultOutcome
  | .plain v =>
    if v == Value.vInvalid then .invalid [] []
    else if v == Value.vIgnored then .ignored
    else .val v
  | .conditional parents support =>
    let key := parents.map fun p => (lookupV point p).getD .vNone
    match resolveDefaultBranch point key support with
    | some (.invalid [] []) => .invalid parents key
    | some r => r
    | none => .ignored

/-- Resolve the default-support branch whose key equals the computed parent tuple, or
`none` when no key matches. -/
def resolveDefaultBranch (point : Config) (key : List Value) :
    DSupport → Option DefaultOutcome
  | .nil => none
  | .cons k branch rest =>
    if k == key then some (resolveDefaultExpr point branch)
    else resolveDefaultBranch point key rest

end

/-- Parameter category tag of `olive/passes/pass_config.py` (`ParamCategory`): `DATA`
marks parameters naming an external dataset location, `OBJECT` marks caller-supplied
callable references, all others are plain parameters. -/
inductive ParamCategory where
  | plainParam
  | data
  | object
  deriving Repr, DecidableEq

/-- One parameter's descriptor (`PassConfigParam` of `olive/passes/pass_config.py`):
default-value expression, optional searchable value space, category tag.  The semantic
type annotation and the human description carry no behaviour and are not modelled. -/
structure PassConfigParam where
  defaultValue : DefaultExpr := .plain .vNone
  searchableValues : Option SearchParameter := none
  category : ParamCategory := .plainParam
  deriving Repr

/-- A parameter table: ordered mapping from parameter name to descriptor (`ParamGroup`). -/
abbrev ParamTable : Type := List (String × PassConfigParam)

/-- First-match lookup in a parameter table. -/
def lookupParam : ParamTable → String → Option PassConfigParam
  | [], _ => none
  | (k, p) :: rest, key => if k == key then some p else lookupParam rest key

/-- In-place update of a named entry of a parameter table (Python
`config[name].field = ...`). -/
def updateParam (table : ParamTable) (name : String) (f : PassConfigParam → PassConfigParam) :
    ParamTable :=
  table.map fun np => if np.1 == name then (np.1, f np.2) else np

/-- `_onnx_quantization_config` of the source: quantization options common to static and
dynamic quantization. -/
def _onnx_quantization_config : ParamTable :=
  [ ("weight_type",
      { defaultValue := .plain (.vStr "QInt8"),
        searchableValues := some (.categorical [.vStr "QInt8", .vStr "QUInt8"]) }),
    ("op_types_to_quantize", { defaultValue := .plain .vNone }),
    ("nodes_to_quantize", { defaultValue := .plain .vNone }),
    ("nodes_to_exclude", { defaultValue := .plain .vNone }),
    ("per_channel",
      { defaultValue := .plain (.vBool false), searchableValues := some BooleanParam }),
    ("reduce_range",
      { defaultValue := .plain (.vBool false), searchableValues := some BooleanParam }),
    ("quant_preprocess",
      { defaultValue := .plain (.vBool true), searchableValues := some BooleanParam }) ]

/-- `_exposed_extra_options_config` of the source: the `extra_options` keys exposed as
individual first-class parameters. -/
def _exposed_extra_options_config : ParamTable :=
  [ ("extra.Sigmoid.nnapi", { defaultValue := .plain (.vBool false) }),
    ("ActivationSymmetric", { defaultValue := .plain (.vBool false) }),
    ("WeightSymmetric", { defaultValue := .plain (.vBool true) }),
    ("EnableSubgraph", { defaultValue := .plain (.vBool false) }),
    ("ForceQuantizeNoInputCheck", { defaultValue := .plain (.vBool false) }),
    ("MatMulConstBOnly",
      { defaultValue := .conditional ["quant_mode"] (DSupport.ofList
          [([.vStr "dynamic"], .plain (.vBool true)),
           ([.vStr "static"], .plain (.vBool false))]) }) ]

/-- The exposed extra-option parameter names, in table order. -/
def exposedExtraOptionKeys : List String := _exposed_extra_options_config.map Prod.fst

/-- `_extra_options_config` of the source: the free-form `extra_options` key/value map. -/
def _extra_options_config : ParamTable :=
  [ ("extra_options", { defaultValue := .plain .vNone }) ]

/-- `_static_dataloader_config` of the source: calibration-data parameters for static
quantization. -/
def _static_dataloader_config : ParamTable :=
  [ ("data_dir", { category := .data }),
    ("batch_size", { defaultValue := .plain (.vInt 1) }),
    ("dataloader_func", { category := .object }),
    ("dataloader_func_kwargs", {}),
    ("data_config", {}) ]

/-- `_static_optional_config` of the source: optional static-quantization parameters.
The `activation_type` search space is the `Conditional` keyed on
`("quant_format", "weight_type")` that declares the parent tuple
`("QOperator", "QInt8")` invalid; as in the source it carries no explicit default
branch, which the missing `search_parameter` module defaults to the ignored choice. -/
def _static_optional_config : ParamTable :=
  [ ("calibrate_method",
      { defaultValue := .plain (.vStr "MinMax"),
        searchableValues :=
          some (.categorical [.vStr "MinMax", .vStr "Entropy", .vStr "Percentile"]) }),
    ("quant_format",
      { defaultValue := .plain (.vStr "QDQ"),
        searchableValues := some (.categorical [.vStr "QOperator", .vStr "QDQ"]) }),
    ("activation_type",
      { defaultValue := .plain (.vStr "QInt8"),
        searchableValues := some (.conditional ["quant_format", "weight_type"]
          (SPSupport.ofList
            [ ([.vStr "QDQ", .vStr "QInt8"], .categorical [.vStr "QInt8"]),
              ([.vStr "QDQ", .vStr "QUInt8"], .categorical [.vStr "QUInt8"]),
              ([.vStr "QOperator", .vStr "QUInt8"], .categorical [.vStr "QUInt8"]),
              ([.vStr "QOperator", .vStr "QInt8"], Conditional.get_invalid_choice) ])
          Conditional.get_ignored_choice) }),
    ("prepare_qnn_config", { defaultValue := .plain (.vBool false) }) ]

/-- Modelled from the spec: `get_external_data_config()` of
`olive/passes/onnx/common.py` (not under `src/`), the storage/output-format parameter
group merged into every table (spec sections 4.2 and 6).  The spec fixes no key names;
representative plain-valued, non-searchable parameters are used, none of which collides
with any other group's keys. -/
def get_external_data_config : ParamTable :=
  [ ("save_as_external_data", { defaultValue := .plain (.vBool false) }),
    ("all_tensors_to_one_file", { defaultValue := .plain (.vBool true) }),
    ("external_data_name", { defaultValue := .plain .vNone }),
    ("size_threshold", { defaultValue := .plain (.vInt 1024) }),
    ("convert_attribute", { defaultValue := .plain (.vBool false) }) ]

/-- Lines 260-288 of the source: wrapping of a static-only optional parameter for the
combined static/dynamic table.  The default becomes a `ConditionalDefault` on
`quant_mode` that keeps the original default when static and yields the `IGNORED`
sentinel when dynamic; a `Categorical` search space becomes a `Conditional` on
`quant_mode` defaulting to the ignored choice, and a `Conditional` search space is
expanded by prepending `quant_mode` to its parents and `"static"` to every support key,
again defaulting to the ignored choice. -/
def wrapStaticOptionalParam (p : PassConfigParam) : PassConfigParam :=
  { p with
    defaultValue := .conditional ["quant_mode"] (DSupport.ofList
      [([.vStr "static"], p.defaultValue),
       ([.vStr "dynamic"], ConditionalDefault.get_ignored_choice)]),
    searchableValues :=
      match p.searchableValues with
      | some (.categorical vs) =>
        some (.conditional ["quant_mode"]
          (SPSupport.ofList [([.vStr "static"], .categorical vs)])
          Conditional.get_ignored_choice)
      | some (.conditional parents support _) =>
        some (.conditional ("quant_mode" :: parents)
          (support.prependKey (.vStr "static"))
          Conditional.get_ignored_choice)
      | other => other }

/-- Accelerator description handed to `_default_config` (`AcceleratorSpec`); only the
execution provider influences the embedded code. -/
structure AcceleratorSpec where
  execution_provider : String
  deriving Repr, DecidableEq

/-- `OnnxQuantization._default_config` of the source: the combined static/dynamic
parameter table.  The groups have pairwise disjoint key sets, so the source's
`dict.update` composition is concatenation in update order; the accelerator
specification is not consulted. -/
def OnnxQuantization._default_config (_accelerator_spec : AcceleratorSpec) : ParamTable :=
  [ ("quant_mode",
      { defaultValue := .plain (.vStr "static"),
        searchableValues := some (.categorical [.vStr "dynamic", .vStr "static"]) }) ]
  ++ _onnx_quantization_config
  ++ _static_dataloader_config
  ++ (_static_optional_config.map fun np => (np.1, wrapStaticOptionalParam np.2))
  ++ _exposed_extra_options_config
  ++ _extra_options_config
  ++ get_external_data_config

/-- `OnnxDynamicQuantization._default_config` of the source: raises `ValueError` for the
QNN execution provider before any table is built; otherwise the dynamic table contains
no static-only group. -/
def OnnxDynamicQuantization._default_config (accelerator_spec : AcceleratorSpec) :
    Except String ParamTable :=
  if accelerator_spec.execution_provider == "QNNExecutionProvider" then
    .error "QNNExecutionProvider is not supported for dynamic quantization."
  else
    .ok ([ ("quant_mode", { defaultValue := .plain (.vStr "dynamic") }) ]
      ++ _onnx_quantization_config
      ++ _exposed_extra_options_config
      ++ _extra_options_config
      ++ get_external_data_config)

/-- `OnnxStaticQuantization._default_config` of the source: the static table includes
the static-only groups unwrapped; for the QNN execution provider it restricts
`quant_format` to `QDQ`, widens `activation_type` and `weight_type` to the 16-bit
types, defaults `prepare_qnn_config` to `True` and `quant_preprocess` to `False`. -/
def OnnxStaticQuantization._default_config (accelerator_spec : AcceleratorSpec) :
    ParamTable :=
  let config : ParamTable :=
    [ ("quant_mode", { defaultValue := .plain (.vStr "static") }) ]
    ++ _onnx_quantization_config
    ++ _static_dataloader_config
    ++ _static_optional_config
    ++ _exposed_extra_options_config
    ++ _extra_options_config
    ++ get_external_data_config
  if accelerator_spec.execution_provider == "QNNExecutionProvider" then
    let config := updateParam config "quant_format" fun p =>
      { p with searchableValues := some (.categorical [.vStr "QDQ"]) }
    let qnnTypes : SearchParameter :=
      .categorical [.vStr "QInt8", .vStr "QUInt8", .vStr "QUInt16", .vStr "QInt16"]
    let config := updateParam config "activation_type" fun p =>
      { p with searchableValues := some qnnTypes }
    let config := updateParam config "weight_type" fun p =>
      { p with searchableValues := some qnnTypes }
    let config := updateParam config "prepare_qnn_config" fun p =>
      { p with defaultValue := .plain (.vBool true) }
    updateParam config "quant_preprocess" fun p =>
      { p with defaultValue := .plain (.vBool false) }
  else
    config

/-- The `InvalidSearchPoint` error of spec sections 4.3 and 7: resolution reached the
`INVALID` sentinel; it identifies the offending parameter and, when the sentinel came
from a conditional, the conditional's parents and the blocking parent-value
combination. -/
structure InvalidSearchPoint where
  param : String
  parents : List String
  key : List Value
  deriving Repr

/-- Outcome of resolving one declared parameter against a search point. -/
inductive ParamResolution where
  | keep (v : Value)
  | drop
  | fail (parents : List String) (key : List Value)
  deriving Repr

/-- Modelled from the spec: resolution of one declared parameter under a search point
(spec sections 4.1 and 4.3).  A parameter assigned in the point keeps its assigned
value, but its search space — the expression the assignment was drawn from — is first
resolved under the point: an `INVALID` search space fails the parameter with the
blocking parent combination and an `IGNORED` search space removes it (spec section 4.3
steps 2-3, "any parameter whose resolved value is `INVALID`/`IGNORED` anywhere").  An
unassigned parameter resolves its default expression, with the same sentinel handling;
assigned sentinel values themselves fail or remove the parameter likewise. -/
def resolveParamEntry (point : Config) (name : String) (p : PassConfigParam) :
    ParamResolution :=
  match lookupV point name with
  | some v =>
    match p.searchableValues with
    | some sp =>
      match resolveSearchParameter point sp with
      | .invalid parents key => .fail parents key
      | .ignored => .drop
      | .choices _ =>
        if v == .vInvalid then .fail [] []
        else if v == .vIgnored then .drop
        else .keep v
    | none =>
      if v == .vInvalid then .fail [] []
      else if v == .vIgnored then .drop
      else .keep v
  | none =>
    match resolveDefaultExpr point p.defaultValue with
    | .invalid parents key => .fail parents key
    | .ignored => .drop
    | .val v => .keep v

/-- Modelled from the spec: run-configuration resolution (spec section 4.3).  Every
declared parameter is resolved in table order via `resolveParamEntry`; the first
parameter whose resolution reaches the `INVALID` sentinel fails the whole resolution
with an `InvalidSearchPoint` error naming it and the blocking parent combination,
parameters whose resolution is the `IGNORED` sentinel are removed from the result (not
set to a neutral value), and all others appear with their concrete value.  The
effective configuration holds exactly the surviving declared parameters. -/
def resolveRunConfig (table : ParamTable) (point : Config) :
    Except InvalidSearchPoint Config :=
  match table with
  | [] => .ok []
  | (name, p) :: rest =>
    match resolveParamEntry point name p with
    | .fail parents key => .error ⟨name, parents, key⟩
    | .drop => resolveRunConfig rest point
    | .keep v =>
      match resolveRunConfig rest point with
      | .error e => .error e
      | .ok cfg => .ok ((name, v) :: cfg)

/-- A search point carries only concrete data values, never the reserved sentinels
(spec section 3: the sentinels are "never ordinary data"). -/
def sentinelFree (point : Config) : Bool :=
  point.all fun kv => !(kv.2 == Value.vInvalid) && !(kv.2 == Value.vIgnored)

/-- A search point for a table assigns only parameters the table declares as
searchable (the search driver samples exactly the search-space dimensions). -/
def assignsOnlySearchable (table : ParamTable) (point : Config) : Bool :=
  point.all fun kv =>
    match lookupParam table kv.1 with
    | some p => p.searchableValues.isSome
    | none => false

/-- A log message emitted through the module logger, tagged with its level. -/
inductive LogMsg where
  | warning (msg : String)
  | info (msg : String)
  deriving Repr

/-- The advisory warning text of lines 313-315 of the source. -/
def s8s8WarningMsg : String :=
  "S8S8 with QOperator will be slow on x86-64 CPUs and should be avoided in general, try QDQ instead."

/-- The rejection reason of line 317 of the source. -/
def enableSubgraphMsg : String := "EnableSubgraph is not supported for static quantization."

/-- `OnnxQuantization.validate_search_point` of the source (lines 298-319) on the
`with_fixed_value = False` path, where `config` is the caller's search point itself
(`search_point or {}`; a missing point is the empty configuration).  Dictionary
accesses are Python `config[key]`, so a missing key raises `KeyError` — modelled as
`Except.error` carrying the key.  The `and`-chain of the S8S8 check short-circuits
exactly as in Python, and the `EnableSubgraph` comparison is Python `is True`, matching
only the boolean `True`.  The boolean result pairs with the log messages emitted. -/
def OnnxQuantization.validate_search_point (search_point : Config) :
    Except String (Bool × List LogMsg) :=
  match lookupV search_point "quant_mode" with
  | none => .error "quant_mode"
  | some qm =>
    if qm == Value.vStr "static" then
      match lookupV search_point "weight_type" with
      | none => .error "weight_type"
      | some wt =>
        let s8s8 : Except String (List LogMsg) :=
          if wt == Value.vStr "QInt8" then
            match lookupV search_point "activation_type" with
            | none => .error "activation_type"
            | some act =>
              if act == Value.vStr "QInt8" then
                match lookupV search_point "quant_format" with
                | none => .error "quant_format"
                | some qf =>
                  if qf == Value.vStr "QOperator" then .ok [.warning s8s8WarningMsg]
                  else .ok []
              else .ok []
          else .ok []
        match s8s8 with
        | .error e => .error e
        | .ok warns =>
          match lookupV search_point "EnableSubgraph" with
          | none => .error "EnableSubgraph"
          | some es =>
            if es == Value.vBool true then
              .ok (false, warns ++ [.info enableSubgraphMsg])
            else .ok (true, warns)
    else .ok (true, [])

/-- An onnxruntime version, compared lexicographically (`packaging.version`). -/
structure OrtVersion where
  major : Nat
  minor : Nat
  patch : Nat
  deriving Repr, DecidableEq

/-- Strict lexicographic version comparison (`version.parse(a) < version.parse(b)`). -/
def versionLt (a b : OrtVersion) : Bool :=
  a.major < b.major ||
    (a.major == b.major && (a.minor < b.minor || (a.minor == b.minor && a.patch < b.patch)))

/-- The kind of an exception raised by an external call; the enumerated kinds are the
ones `_run_for_config` treats specially plus an open catch-all. -/
inductive ExcKind where
  | attributeError
  | valueError
  | runtimeError
  | typeError
  | otherKind (name : String)
  deriving Repr, DecidableEq

/-- An exception surfacing from `_run_for_config`: Python `KeyError` on a missing
configuration key, the failed `assert`, the domain error `OlivePassError` (optionally
carrying the external cause it was raised `from`), an external exception propagating
unmodified, a `TypeError`-like misuse of a modelled value, or the `NameError` Python
would raise when using the never-bound `dataloader` variable. -/
inductive PyExc where
  | keyError (key : String)
  | assertionError (msg : String)
  | olivePassError (msg : String) (cause : Option ExcKind)
  | externalError (kind : ExcKind)
  | typeErrorExc (what : String)
  | nameError (name : String)
  deriving Repr

/-- An externally observable step of `_run_for_config`: the advisory collision warning,
and the calls crossing the boundary to external collaborators (model preprocessing,
calibration-dataloader construction, QNN config retrieval, and the two quantization
entry points, the latter carrying the keyword-argument configuration handed over). -/
inductive Event where
  | warnExtraOptionsOverwritten (keys : List String)
  | preprocessCall
  | dataloaderFuncCall
  | createCalibrationDataloaderCall
  | getQnnQdqConfigCall
  | quantizeStaticCall (kwargs : Config)
  | quantizeDynamicCall (kwargs : Config)
  deriving Repr

/-- Behaviour of the one external quantization call of a run. -/
inductive ExtResult where
  | success
  | raises (kind : ExcKind)
  deriving Repr

/-- The run environment: the detected onnxruntime version, whether a preprocessed copy
of the input model is already cached in the pass's temporary directory, the behaviour
of the external quantization call, and the attribute dictionary
`inspect.getmembers(get_qnn_qdq_config(...))` would produce. -/
structure RunEnv where
  ortVersion : OrtVersion
  preprocessedModelCached : Bool
  quantizerResult : ExtResult
  qnnConfigMembers : Config

/-- Lines 348-350 of the source: for every exposed extra-option key, move the pass
parameter's value into `extra_options` (overwriting any caller-supplied entry) and
delete the key from `run_config`; a missing exposed key is a Python `KeyError`. -/
def applyExposedOverrides :
    List String → Config → Entries → Except PyExc (Config × Entries)
  | [], runConfig, extraOptions => .ok (runConfig, extraOptions)
  | k :: rest, runConfig, extraOptions =>
    match lookupV runConfig k with
    | none => .error (.keyError k)
    | some v => applyExposedOverrides rest (dictDel runConfig k) (extraOptions.set k v)

/-- Lines 338-350 of the source: read the caller's `extra_options` map (an absent or
falsy value is the empty map), compute the keys it shares with the exposed
extra-option parameters (the source's set intersection, here listed in the map's
insertion order), then overwrite those entries from the pass configuration via
`applyExposedOverrides`.  Returns the pruned `run_config`, the effective
`extra_options`, and the overwritten-key list the advisory warning reports. -/
def mergeExtraOptions (config : Config) : Except PyExc (Config × Entries × List String) :=
  match lookupV config "extra_options" with
  | none => .error (.keyError "extra_options")
  | some eoV =>
    if truthy eoV then
      match eoV with
      | .vDict eo =>
        let overwritten := eo.keys.filter fun k => exposedExtraOptionKeys.contains k
        match applyExposedOverrides exposedExtraOptionKeys config eo with
        | .error e => .error e
        | .ok (runConfig, extraOptions) => .ok (runConfig, extraOptions, overwritten)
      | _ => .error (.typeErrorExc "extra_options")
    else
      match applyExposedOverrides exposedExtraOptionKeys config .nil with
      | .error e => .error e
      | .ok (runConfig, extraOptions) => .ok (runConfig, extraOptions, [])

/-- String-to-external-enum conversion at the resolved-configuration boundary
(`CalibrationMethod[...]`, `QuantFormat[...]`, `QuantType[...]`): the named entry must
be present and a string; member-name validity inside the external enumeration is the
external library's concern and is not modelled. -/
def convertEnum (runConfig : Config) (key enumName : String) : Except PyExc Config :=
  match lookupV runConfig key with
  | none => .error (.keyError key)
  | some (.vStr s) => .ok (dictSet runConfig key (.vEnum enumName s))
  | some _ => .error (.typeErrorExc key)

/-- Lines 461-480 of the source: the external quantization call is tried, and exactly
`AttributeError` and `ValueError` are caught and re-raised as `OlivePassError` with the
given message, `from` the original exception; every other exception kind propagates
unmodified. -/
def quantizeCallOutcome (result : ExtResult) (failMsg : String) : Except PyExc Unit :=
  match result with
  | .success => .ok ()
  | .raises .attributeError => .error (.olivePassError failMsg (some .attributeError))
  | .raises .valueError => .error (.olivePassError failMsg (some .valueError))
  | .raises k => .error (.externalError k)

/-- Lines 372-490 of the source: everything from the `to_delete` bookkeeping to the
external quantization call.  `runConfig` and `extraOptions` are the state after the
extra-options merge, `events` the events already emitted (collision warning,
preprocessing).  Static runs convert the four enum-typed entries, fold `extra_options`
back in, drop the bookkeeping keys, build the calibration dataloader from the original
`config` (`dataloader_func` first, `data_config` otherwise; behind the earlier
assertion one of them is truthy — were neither, Python would raise `NameError` on the
unbound `dataloader` variable), optionally replace the configuration by the retrieved
QNN config members (minus `calibration_data_reader`), and call `quantize_static`;
dynamic runs convert `weight_type`, drop also the static-only keys, and call
`quantize_dynamic`.  For onnxruntime older than 1.16.0, `optimize_model` is forced to
`False` before the call. -/
def executeQuantization (config : Config) (env : RunEnv) (is_static : Bool)
    (runConfig : Config) (extraOptions : Entries) (events : List Event) :
    List Event × Except PyExc Unit :=
  let to_delete : List String :=
    ["quant_mode", "script_dir", "user_script", "quant_preprocess", "data_config",
     "prepare_qnn_config"] ++ get_external_data_config.map Prod.fst
  if is_static then
    let to_delete := to_delete ++ _static_dataloader_config.map Prod.fst
    match convertEnum runConfig "calibrate_method" "CalibrationMethod" with
    | .error e => (events, .error e)
    | .ok runConfig =>
    match convertEnum runConfig "quant_format" "QuantFormat" with
    | .error e => (events, .error e)
    | .ok runConfig =>
    match convertEnum runConfig "activation_type" "QuantType" with
    | .error e => (events, .error e)
    | .ok runConfig =>
    match convertEnum runConfig "weight_type" "QuantType" with
    | .error e => (events, .error e)
    | .ok runConfig =>
    let runConfig := dictSet runConfig "extra_options" (.vDict extraOptions)
    let runConfig := to_delete.foldl dictDel runConfig
    let runConfig :=
      if versionLt env.ortVersion ⟨1, 16, 0⟩ then
        dictSet runConfig "optimize_model" (.vBool false)
      else runConfig
    match lookupV config "dataloader_func" with
    | none => (events, .error (.keyError "dataloader_func"))
    | some dlf =>
    let dataloaderStep : Except PyExc (List Event) :=
      if truthy dlf then
        match lookupV config "data_dir" with
        | none => .error (.keyError "data_dir")
        | some _ =>
        match lookupV config "batch_size" with
        | none => .error (.keyError "batch_size")
        | some _ =>
        match lookupV config "dataloader_func_kwargs" with
        | none => .error (.keyError "dataloader_func_kwargs")
        | some _ => .ok [.dataloaderFuncCall]
      else
        match lookupV config "data_config" with
        | none => .error (.keyError "data_config")
        | some dc =>
          if truthy dc then .ok [.createCalibrationDataloaderCall]
          else .error (.nameError "dataloader")
    match dataloaderStep with
    | .error e => (events, .error e)
    | .ok dlEvents =>
    let events := events ++ dlEvents
    match lookupV config "prepare_qnn_config" with
    | none => (events, .error (.keyError "prepare_qnn_config"))
    | some pqc =>
    let (events, runConfig) :=
      if truthy pqc then
        (events ++ [Event.getQnnQdqConfigCall],
         dictDel env.qnnConfigMembers "calibration_data_reader")
      else (events, runConfig)
    let runConfig := dictDel (dictDel runConfig "calibration_data_reader") "use_external_data_format"
    let events := events ++ [Event.quantizeStaticCall runConfig]
    (events, quantizeCallOutcome env.quantizerResult "quantize_static failed.")
  else
    let to_delete := to_delete ++ _static_dataloader_config.map Prod.fst
      ++ _static_optional_config.map Prod.fst
    match convertEnum runConfig "weight_type" "QuantType" with
    | .error e => (events, .error e)
    | .ok runConfig =>
    let runConfig := dictSet runConfig "extra_options" (.vDict extraOptions)
    let runConfig := to_delete.foldl dictDel runConfig
    let runConfig :=
      if versionLt env.ortVersion ⟨1, 16, 0⟩ then
        dictSet runConfig "optimize_model" (.vBool false)
      else runConfig
    let events := events ++ [Event.quantizeDynamicCall runConfig]
    (events, quantizeCallOutcome env.quantizerResult "quantize_dynamic failed.")

/-- The fatal-error message of line 370 of the source. -/
def prepareQnnVersionMsg : String :=
  "prepare_qnn_config is only supported for onnxruntime-qnn>=1.17.0"

/-- Lines 338-421 of the source, entered once the calibration-supply assertion has
passed: merge the extra options (emitting the advisory collision warning), run the
optional model preprocessing (an external call only when `quant_preprocess` is truthy
and no preprocessed copy is cached), then fail with `OlivePassError` when
`prepare_qnn_config` is requested (`run_config.get`, defaulting to `False`) on
onnxruntime older than 1.17.0, and otherwise continue into `executeQuantization`. -/
def afterCalibrationCheck (config : Config) (env : RunEnv) (is_static : Bool) :
    List Event × Except PyExc Unit :=
  match mergeExtraOptions config with
  | .error e => ([], .error e)
  | .ok (runConfig, extraOptions, overwritten) =>
    let events : List Event :=
      if overwritten == ([] : List String) then []
      else [.warnExtraOptionsOverwritten overwritten]
    match lookupV runConfig "quant_preprocess" with
    | none => (events, .error (.keyError "quant_preprocess"))
    | some qp =>
      let events :=
        events ++
          if truthy qp then
            if env.preprocessedModelCached then [] else [Event.preprocessCall]
          else []
      let pqc := (lookupV runConfig "prepare_qnn_config").getD (Value.vBool false)
      if truthy pqc && versionLt env.ortVersion ⟨1, 17, 0⟩ then
        (events, .error (.olivePassError prepareQnnVersionMsg none))
      else
        executeQuantization config env is_static runConfig extraOptions events

/-- The assertion message of lines 332-334 of the source. -/
def calibrationAssertMsg : String :=
  "dataloader_func or data_config is required for static quantization."

/-- `OnnxQuantization._run_for_config` of the source (lines 321-490): the run phase of
one quantization pass execution, returning the externally observable events in order
together with the outcome.  The mode selector is read first (`KeyError` when absent);
static runs then assert that `dataloader_func` or `data_config` is truthy — evaluated
with Python's short-circuit `or` — failing with `AssertionError` before anything else
happens; the remainder is `afterCalibrationCheck`. -/
def OnnxQuantization._run_for_config (config : Config) (env : RunEnv) :
    List Event × Except PyExc Unit :=
  match lookupV config "quant_mode" with
  | none => ([], .error (.keyError "quant_mode"))
  | some qm =>
    let is_static := qm == Value.vStr "static"
    if is_static then
      match lookupV config "dataloader_func" with
      | none => ([], .error (.keyError "dataloader_func"))
      | some dlf =>
        if truthy dlf then afterCalibrationCheck config env true
        else
          match lookupV config "data_config" with
          | none => ([], .error (.keyError "data_config"))
          | some dc =>
            if truthy dc then afterCalibrationCheck config env true
            else ([], .error (.assertionError calibrationAssertMsg))
    else afterCalibrationCheck config env false

/-! ## Concrete run configurations used to exercise the run phase -/

/-- The combined static/dynamic parameter table (the accelerator specification is not
consulted by `OnnxQuantization._default_config`). -/
def quantizationTable : ParamTable :=
  OnnxQuantization._default_config ⟨"CPUExecutionProvider"⟩

/-- The effective configuration of a default static search point, with a calibration
dataloader function supplied (as the static-mode assertion requires). -/
def staticRunConfigExample : Config :=
  dictSet ((resolveRunConfig quantizationTable [("quant_mode", .vStr "static")]).toOption.getD [])
    "dataloader_func" (.vStr "create_dataloader")

/-- The effective configuration of a default dynamic search point. -/
def dynamicRunConfigExample : Config :=
  (resolveRunConfig quantizationTable [("quant_mode", .vStr "dynamic")]).toOption.getD []

example : lookupV staticRunConfigExample "quant_mode" = some (.vStr "static") := rfl
example : lookupV dynamicRunConfigExample "quant_mode" = some (.vStr "dynamic") := rfl

/-! ## C4, C5, C9: the validator -/

/-- Claim C4: a fully resolved static search point with `weight_type = "QInt8"`,
`activation_type = "QInt8"` and `quant_format = "QOperator"` (and `EnableSubgraph` not
`True`) is accepted by `validate_search_point` — the result is `True`, not a rejection —
while the advisory S8S8 warning is emitted. -/
theorem C4_s8s8_qoperator_accepted_with_warning (cfg : Config)
    (hqm : lookupV cfg "quant_mode" = some (.vStr "static"))
    (hwt : lookupV cfg "weight_type" = some (.vStr "QInt8"))
    (hat : lookupV cfg "activation_type" = some (.vStr "QInt8"))
    (hqf : lookupV cfg "quant_format" = some (.vStr "QOperator"))
    (hes : ∃ es, lookupV cfg "EnableSubgraph" = some es ∧ es ≠ .vBool true) :
    OnnxQuantization.validate_search_point cfg = .ok (true, [.warning s8s8WarningMsg]) := by
  obtain ⟨es, hes1, hes2⟩ := hes
  simp [OnnxQuantization.validate_search_point, hqm, hwt, hat, hqf, hes1, hes2]

/-- Witness for C4 at a concrete fully resolved search point. -/
theorem C4_s8s8_qoperator_accepted_with_warning_witness :
    OnnxQuantization.validate_search_point
      [("quant_mode", .vStr "static"), ("weight_type", .vStr "QInt8"),
       ("activation_type", .vStr "QInt8"), ("quant_format", .vStr "QOperator"),
       ("EnableSubgraph", .vBool false)] = .ok (true, [.warning s8s8WarningMsg]) :=
  C4_s8s8_qoperator_accepted_with_warning _ rfl rfl rfl rfl
    ⟨.vBool false, rfl, by decide⟩

/-- Claim C5: a fully resolved static search point with `EnableSubgraph = True` is
rejected by `validate_search_point` — the result is `False`, delivered as a value
rather than an exception — together with the human-readable reason logged. -/
theorem C5_enable_subgraph_static_rejected (cfg : Config)
    (hqm : lookupV cfg "quant_mode" = some (.vStr "static"))
    (hwt : ∃ w, lookupV cfg "weight_type" = some w)
    (hat : ∃ a, lookupV cfg "activation_type" = some a)
    (hqf : ∃ f, lookupV cfg "quant_format" = some f)
    (hes : lookupV cfg "EnableSubgraph" = some (.vBool true)) :
    ∃ warns, OnnxQuantization.validate_search_point cfg
      = .ok (false, warns ++ [.info enableSubgraphMsg]) := by
  obtain ⟨w, hw⟩ := hwt
  obtain ⟨a, ha⟩ := hat
  obtain ⟨f, hf⟩ := hqf
  by_cases h1 : w = Value.vStr "QInt8" <;> by_cases h2 : a = Value.vStr "QInt8" <;>
    by_cases h3 : f = Value.vStr "QOperator" <;>
    simp [OnnxQuantization.validate_search_point, hqm, hw, ha, hf, hes, h1, h2, h3] <;>
    exact ⟨[LogMsg.warning s8s8WarningMsg], rfl⟩

/-- Witness for C5 at a concrete fully resolved search point. -/
theorem C5_enable_subgraph_static_rejected_witness :
    ∃ warns, OnnxQuantization.validate_search_point
      [("quant_mode", .vStr "static"), ("weight_type", .vStr "QUInt8"),
       ("activation_type", .vStr "QUInt8"), ("quant_format", .vStr "QDQ"),
       ("EnableSubgraph", .vBool true)] = .ok (false, warns ++ [.info enableSubgraphMsg]) :=
  C5_enable_subgraph_static_rejected _ rfl ⟨_, rfl⟩ ⟨_, rfl⟩ ⟨_, rfl⟩ rfl

/-- Claim C9 counterexample: a partial static point that lacks `activation_type` and
`quant_format` does not raise `KeyError` — the short-circuiting `and` of the S8S8 check
never reaches those keys once `weight_type ≠ "QInt8"` — so the validator returns an
accept result, contradicting the claim that lacking any of the four static-rule keys
raises `KeyError`. -/
theorem C9_counterexample_short_circuit_skips_missing_keys :
    OnnxQuantization.validate_search_point
      [("quant_mode", .vStr "static"), ("weight_type", .vStr "QUInt8"),
       ("EnableSubgraph", .vBool false)] = .ok (true, []) := rfl

/-- Claim C9 as amended: with `with_fixed_value = False`, `validate_search_point`
raises `KeyError` exactly for the keys its rules actually reach under Python's
short-circuit evaluation — a missing `quant_mode` always; under static mode a missing
`weight_type` always, a missing `activation_type` only when `weight_type = "QInt8"`, a
missing `quant_format` only when additionally `activation_type = "QInt8"`, and a
missing `EnableSubgraph` whenever the S8S8 condition could be evaluated (in particular
when the first three keys are present). -/
theorem C9_amended_keyerror_only_for_reached_keys (cfg : Config) :
    (lookupV cfg "quant_mode" = none →
      OnnxQuantization.validate_search_point cfg = .error "quant_mode") ∧
    (lookupV cfg "quant_mode" = some (.vStr "static") →
      lookupV cfg "weight_type" = none →
      OnnxQuantization.validate_search_point cfg = .error "weight_type") ∧
    (lookupV cfg "quant_mode" = some (.vStr "static") →
      lookupV cfg "weight_type" = some (.vStr "QInt8") →
      lookupV cfg "activation_type" = none →
      OnnxQuantization.validate_search_point cfg = .error "activation_type") ∧
    (lookupV cfg "quant_mode" = some (.vStr "static") →
      lookupV cfg "weight_type" = some (.vStr "QInt8") →
      lookupV cfg "activation_type" = some (.vStr "QInt8") →
      lookupV cfg "quant_format" = none →
      OnnxQuantization.validate_search_point cfg = .error "quant_format") ∧
    (lookupV cfg "quant_mode" = some (.vStr "static") →
      (∃ w, lookupV cfg "weight_type" = some w) →
      (∃ a, lookupV cfg "activation_type" = some a) →
      (∃ f, lookupV cfg "quant_format" = some f) →
      lookupV cfg "EnableSubgraph" = none →
      OnnxQuantization.validate_search_point cfg = .error "EnableSubgraph") := by
  refine ⟨?_, ?_, ?_, ?_, ?_⟩
  · intro h1
    simp [OnnxQuantization.validate_search_point, h1]
  · intro h1 h2
    simp [OnnxQuantization.validate_search_point, h1, h2]
  · intro h1 h2 h3
    simp [OnnxQuantization.validate_search_point, h1, h2, h3]
  · intro h1 h2 h3 h4
    simp [OnnxQuantization.validate_search_point, h1, h2, h3, h4]
  · intro h1 ⟨w, hw⟩ ⟨a, ha⟩ ⟨f, hf⟩ h5
    by_cases hb1 : w = Value.vStr "QInt8" <;> by_cases hb2 : a = Value.vStr "QInt8" <;>
      by_cases hb3 : f = Value.vStr "QOperator" <;>
      simp [OnnxQuantization.validate_search_point, h1, hw, ha, hf, h5, hb1, hb2, hb3]

/-- Witness for the amended C9, applying it at concrete partial points that reach each
of the five `KeyError` sites. -/
theorem C9_amended_keyerror_only_for_reached_keys_witness :
    OnnxQuantization.validate_search_point [] = .error "quant_mode" ∧
    OnnxQuantization.validate_search_point
      [("quant_mode", .vStr "static")] = .error "weight_type" ∧
    OnnxQuantization.validate_search_point
      [("quant_mode", .vStr "static"), ("weight_type", .vStr "QInt8")]
      = .error "activation_type" ∧
    OnnxQuantization.validate_search_point
      [("quant_mode", .vStr "static"), ("weight_type", .vStr "QInt8"),
       ("activation_type", .vStr "QInt8")] = .error "quant_format" ∧
    OnnxQuantization.validate_search_point
      [("quant_mode", .vStr "static"), ("weight_type", .vStr "QUInt8"),
       ("activation_type", .vStr "QUInt8"), ("quant_format", .vStr "QDQ")]
      = .error "EnableSubgraph" :=
  ⟨(C9_amended_keyerror_only_for_reached_keys _).1 rfl,
   (C9_amended_keyerror_only_for_reached_keys _).2.1 rfl rfl,
   (C9_amended_keyerror_only_for_reached_keys _).2.2.1 rfl rfl rfl,
   (C9_amended_keyerror_only_for_reached_keys _).2.2.2.1 rfl rfl rfl rfl,
   (C9_amended_keyerror_only_for_reached_keys _).2.2.2.2 rfl ⟨_, rfl⟩ ⟨_, rfl⟩ ⟨_, rfl⟩ rfl⟩

/-! ## C10: provider-specific table construction -/

/-- Claim C10: requesting the dynamic-quantization table for the QNN execution
provider raises `ValueError` before any table is built, while the static-quantization
table is instead specialized for that provider: `quant_format` restricted to `QDQ`,
16-bit activation and weight types allowed, `prepare_qnn_config` defaulting to `True`
and `quant_preprocess` defaulting to `False`. -/
theorem C10_qnn_provider_dynamic_rejected_static_specialized :
    OnnxDynamicQuantization._default_config ⟨"QNNExecutionProvider"⟩ =
      .error "QNNExecutionProvider is not supported for dynamic quantization." ∧
    lookupParam (OnnxStaticQuantization._default_config ⟨"QNNExecutionProvider"⟩)
        "quant_format" =
      some { defaultValue := .plain (.vStr "QDQ"),
             searchableValues := some (.categorical [.vStr "QDQ"]) } ∧
    lookupParam (OnnxStaticQuantization._default_config ⟨"QNNExecutionProvider"⟩)
        "activation_type" =
      some { defaultValue := .plain (.vStr "QInt8"),
             searchableValues := some (.categorical
               [.vStr "QInt8", .vStr "QUInt8", .vStr "QUInt16", .vStr "QInt16"]) } ∧
    lookupParam (OnnxStaticQuantization._default_config ⟨"QNNExecutionProvider"⟩)
        "weight_type" =
      some { defaultValue := .plain (.vStr "QInt8"),
             searchableValues := some (.categorical
               [.vStr "QInt8", .vStr "QUInt8", .vStr "QUInt16", .vStr "QInt16"]) } ∧
    lookupParam (OnnxStaticQuantization._default_config ⟨"QNNExecutionProvider"⟩)
        "prepare_qnn_config" =
      some { defaultValue := .plain (.vBool true) } ∧
    lookupParam (OnnxStaticQuantization._default_config ⟨"QNNExecutionProvider"⟩)
        "quant_preprocess" =
      some { defaultValue := .plain (.vBool false), searchableValues := some BooleanParam } :=
  ⟨rfl, rfl, rfl, rfl, rfl, rfl⟩

/-! ## C8: narrow catching of external quantizer failures -/

/-- Claim C8: a failure raised by the external quantization call is caught exactly for
the kinds `AttributeError` and `ValueError`, which are re-raised as the single domain
error `OlivePassError` carrying the original exception as cause; every other exception
kind raised by `quantize_static` or `quantize_dynamic` propagates unmodified. -/
theorem C8_external_quantizer_failures_wrapped_narrowly (k : ExcKind) :
    (OnnxQuantization._run_for_config staticRunConfigExample
        ⟨⟨1, 17, 0⟩, false, .raises k, []⟩).2 =
      (match k with
       | .attributeError => .error (.olivePassError "quantize_static failed." (some k))
       | .valueError => .error (.olivePassError "quantize_static failed." (some k))
       | _ => .error (.externalError k)) ∧
    (OnnxQuantization._run_for_config dynamicRunConfigExample
        ⟨⟨1, 17, 0⟩, false, .raises k, []⟩).2 =
      (match k with
       | .attributeError => .error (.olivePassError "quantize_dynamic failed." (some k))
       | .valueError => .error (.olivePassError "quantize_dynamic failed." (some k))
       | _ => .error (.externalError k)) := by
  cases k <;> exact ⟨rfl, rfl⟩

/-! ## C6: calibration source required for static mode -/

/-- Claim C6: a static-mode run supplying neither a calibration callable
(`dataloader_func`) nor a data-source descriptor (`data_config`) fails with the
configuration assertion before any external step — the event trace is empty, so the
failure precedes preprocessing and the quantization call; when at least one of the two
is supplied (truthy), the check passes and the run proceeds into the remainder of the
pipeline unchanged. -/
theorem C6_static_requires_calibration_source (cfg : Config) (env : RunEnv)
    (dlf dc : Value)
    (hqm : lookupV cfg "quant_mode" = some (.vStr "static"))
    (hdlf : lookupV cfg "dataloader_func" = some dlf)
    (hdc : lookupV cfg "data_config" = some dc) :
    (truthy dlf = false → truthy dc = false →
      OnnxQuantization._run_for_config cfg env =
        ([], .error (.assertionError calibrationAssertMsg))) ∧
    (truthy dlf = true ∨ truthy dc = true →
      OnnxQuantization._run_for_config cfg env = afterCalibrationCheck cfg env true) := by
  constructor
  · intro h1 h2
    simp [OnnxQuantization._run_for_config, hqm, hdlf, hdc, h1, h2]
  · intro h
    rcases h with h | h
    · simp [OnnxQuantization._run_for_config, hqm, hdlf, hdc, h]
    · by_cases h1 : truthy dlf = true <;>
        simp [OnnxQuantization._run_for_config, hqm, hdlf, hdc, h, h1]

/-- Witness for C6: with neither source supplied the assertion fires with an empty
event trace; with a dataloader function supplied the run equals the continuation. -/
theorem C6_static_requires_calibration_source_witness :
    OnnxQuantization._run_for_config
      [("quant_mode", .vStr "static"), ("dataloader_func", .vNone), ("data_config", .vNone)]
      ⟨⟨1, 17, 0⟩, false, .success, []⟩ =
      ([], .error (.assertionError calibrationAssertMsg)) ∧
    OnnxQuantization._run_for_config staticRunConfigExample ⟨⟨1, 17, 0⟩, false, .success, []⟩ =
      afterCalibrationCheck staticRunConfigExample ⟨⟨1, 17, 0⟩, false, .success, []⟩ true :=
  ⟨(C6_static_requires_calibration_source
      [("quant_mode", .vStr "static"), ("dataloader_func", .vNone), ("data_config", .vNone)]
      ⟨⟨1, 17, 0⟩, false, .success, []⟩ .vNone .vNone rfl rfl rfl).1 rfl rfl,
   (C6_static_requires_calibration_source staticRunConfigExample
      ⟨⟨1, 17, 0⟩, false, .success, []⟩ (.vStr "create_dataloader") .vNone rfl rfl rfl).2
      (Or.inl rfl)⟩

/-! ## C7: prepare_qnn_config version gate -/

/-- A static run configuration requesting the QNN-config capability. -/
def qnnRequestConfigExample : Config :=
  dictSet staticRunConfigExample "prepare_qnn_config" (.vBool true)

/-- Claim C7 counterexample: with `prepare_qnn_config` requested, onnxruntime 1.16.0
detected, `quant_preprocess` enabled (its resolved default) and no cached preprocessed
model, the run does fail with the `OlivePassError` version gate — but only after the
external model-preprocessing call has executed: the event trace at the failure is not
empty, contradicting the claim that the error is raised before execution of any
external-library operation begins. -/
theorem C7_counterexample_preprocess_precedes_version_gate :
    OnnxQuantization._run_for_config qnnRequestConfigExample ⟨⟨1, 16, 0⟩, false, .success, []⟩ =
      ([Event.preprocessCall], .error (.olivePassError prepareQnnVersionMsg none)) ∧
    (OnnxQuantization._run_for_config qnnRequestConfigExample
        ⟨⟨1, 16, 0⟩, false, .success, []⟩).1 ≠ [] :=
  ⟨rfl, fun h => List.noConfusion h⟩

/-- Claim C7 as amended: requesting `prepare_qnn_config` on onnxruntime older than
1.17.0 fails with the fatal `OlivePassError` before the quantization call, before
dataloader construction and before QNN-config retrieval — but after the optional
model-preprocessing step, which does execute an external preprocessing call first when
`quant_preprocess` is enabled and no preprocessed copy is cached. -/
theorem C7_amended_version_gate_after_preprocess_only (cached qp : Bool) (v : OrtVersion)
    (hv : versionLt v ⟨1, 17, 0⟩ = true) :
    OnnxQuantization._run_for_config
        (dictSet qnnRequestConfigExample "quant_preprocess" (.vBool qp))
        ⟨v, cached, .success, []⟩ =
      ((if qp && !cached then [Event.preprocessCall] else []),
       .error (.olivePassError prepareQnnVersionMsg none)) := by
  cases cached <;> cases qp <;>
    simp [OnnxQuantization._run_for_config, afterCalibrationCheck, mergeExtraOptions,
      applyExposedOverrides, qnnRequestConfigExample, staticRunConfigExample,
      quantizationTable, dictSet, dictDel, lookupV, truthy, hv]

/-- Witness for the amended C7 at onnxruntime 1.16.0 with preprocessing enabled and a
cold cache. -/
theorem C7_amended_version_gate_after_preprocess_only_witness :
    OnnxQuantization._run_for_config
        (dictSet qnnRequestConfigExample "quant_preprocess" (.vBool true))
        ⟨⟨1, 16, 0⟩, false, .success, []⟩ =
      ([Event.preprocessCall], .error (.olivePassError prepareQnnVersionMsg none)) :=
  C7_amended_version_gate_after_preprocess_only false true ⟨1, 16, 0⟩ rfl

/-! ## C3: exposed parameters override the free-form extra options -/

theorem lookupV_dictDel_ne (c : Config) (k k2 : String) (h : k ≠ k2) :
    lookupV (dictDel c k2) k = lookupV c k := by
  induction c with
  | nil => rfl
  | cons hd tl ih =>
    rcases hd with ⟨k1, v1⟩
    by_cases h1 : k1 = k2 <;> by_cases h2 : k1 = k <;>
      simp_all [dictDel, lookupV]

theorem Entries.get_set_self : (e : Entries) → (k : String) → (v : Value) →
    (e.set k v).get k = some v
  | .nil, k, v => by simp [Entries.set, Entries.get]
  | .cons k1 v1 rest, k, v => by
    by_cases h1 : k1 = k <;>
      simp [Entries.set, Entries.get, h1, Entries.get_set_self rest k v]

theorem Entries.get_set_ne : (e : Entries) → (k2 k : String) → (v : Value) →
    k ≠ k2 → (e.set k2 v).get k = e.get k
  | .nil, k2, k, v, h => by simp [Entries.set, Entries.get, Ne.symm h]
  | .cons k1 v1 rest, k2, k, v, h => by
    by_cases h1 : k1 = k2 <;> by_cases h2 : k1 = k <;>
      simp_all [Entries.set, Entries.get, Entries.get_set_ne rest k2 k v h]

/-- Behaviour of the exposed-override loop: when every listed key is present in the
pass configuration, the loop succeeds, the produced `extra_options` holds the pass
configuration's value for every listed key (the exposed value always wins), and every
unlisted key keeps whatever the caller's map held. -/
theorem applyExposedOverrides_spec (keys : List String) (rc : Config) (ex : Entries)
    (hnd : keys.Nodup)
    (hall : ∀ k, k ∈ keys → ∃ v, lookupV rc k = some v) :
    ∃ rc2 ex2, applyExposedOverrides keys rc ex = .ok (rc2, ex2) ∧
      (∀ k, k ∈ keys → ex2.get k = lookupV rc k) ∧
      (∀ k, k ∉ keys → ex2.get k = ex.get k) := by
  induction keys generalizing rc ex with
  | nil => exact ⟨rc, ex, rfl, by simp, fun k _ => rfl⟩
  | cons k0 rest ih =>
    obtain ⟨v0, hv0⟩ := hall k0 (by simp)
    have hk0 : k0 ∉ rest := (List.nodup_cons.mp hnd).1
    have hall2 : ∀ k, k ∈ rest → ∃ v, lookupV (dictDel rc k0) k = some v := by
      intro k hk
      obtain ⟨v, hv⟩ := hall k (by simp [hk])
      refine ⟨v, ?_⟩
      rw [lookupV_dictDel_ne rc k k0 (fun he => hk0 (he ▸ hk))]
      exact hv
    obtain ⟨rc2, ex2, heq, hin, hout⟩ :=
      ih (dictDel rc k0) (ex.set k0 v0) (List.nodup_cons.mp hnd).2 hall2
    refine ⟨rc2, ex2, ?_, ?_, ?_⟩
    · simp [applyExposedOverrides, hv0, heq]
    · intro k hk
      rcases List.mem_cons.mp hk with h | h
      · subst h
        rw [hout k hk0, Entries.get_set_self, hv0]
      · rw [hin k h, lookupV_dictDel_ne rc k k0 (fun he => hk0 (he ▸ h))]
    · intro k hk
      have hk1 : k ≠ k0 := fun he => hk (by simp [he])
      rw [hout k (fun hm => hk (by simp [hm])), Entries.get_set_ne ex k0 k v0 hk1]

/-- A static run configuration whose caller-supplied `extra_options` map collides with
the exposed `EnableSubgraph` parameter and also carries an unexposed key. -/
def collisionExtraOptionsConfigExample : Config :=
  dictSet staticRunConfigExample "extra_options"
    (.vDict (.cons "EnableSubgraph" (.vBool true) (.cons "foo" (.vInt 3) .nil)))

/-- The keyword arguments the external `quantize_static` call receives for
`collisionExtraOptionsConfigExample` (onnxruntime 1.17.0, cold cache): the colliding
`EnableSubgraph` entry holds the exposed parameter's resolved value `False`, not the
caller's `True`, while the unexposed `foo` entry is kept. -/
def collisionQuantizeKwargs : Config :=
  [("weight_type", .vEnum "QuantType" "QInt8"),
   ("op_types_to_quantize", .vNone),
   ("nodes_to_quantize", .vNone),
   ("nodes_to_exclude", .vNone),
   ("per_channel", .vBool false),
   ("reduce_range", .vBool false),
   ("calibrate_method", .vEnum "CalibrationMethod" "MinMax"),
   ("quant_format", .vEnum "QuantFormat" "QDQ"),
   ("activation_type", .vEnum "QuantType" "QInt8"),
   ("extra_options", .vDict
     (.cons "EnableSubgraph" (.vBool false)
       (.cons "foo" (.vInt 3)
         (.cons "extra.Sigmoid.nnapi" (.vBool false)
           (.cons "ActivationSymmetric" (.vBool false)
             (.cons "WeightSymmetric" (.vBool true)
               (.cons "ForceQuantizeNoInputCheck" (.vBool false)
                 (.cons "MatMulConstBOnly" (.vBool false) .nil))))))))]

/-- Claim C3: whenever the caller-supplied `extra_options` map shares keys with the
exposed extra-option parameters, the merge succeeds (the collision is non-fatal), the
resulting effective options hold the exposed parameter's resolved configuration value
for every exposed key (the exposed value always wins), and the reported overwritten-key
list names exactly the colliding keys, listed in the caller map's insertion order.  At
the concrete colliding configuration, the full run emits the advisory warning naming
`EnableSubgraph` and hands the external `quantize_static` call effective options whose
`EnableSubgraph` entry is the exposed resolved value `False`. -/
theorem C3_exposed_values_override_extra_options (cfg : Config) (eo : Entries)
    (heo : lookupV cfg "extra_options" = some (.vDict eo))
    (hexp : ∀ k, k ∈ exposedExtraOptionKeys → ∃ v, lookupV cfg k = some v) :
    (∃ rc ex, mergeExtraOptions cfg =
        .ok (rc, ex, eo.keys.filter fun k => exposedExtraOptionKeys.contains k) ∧
      (∀ k, k ∈ exposedExtraOptionKeys → ex.get k = lookupV cfg k) ∧
      (∀ k, (k ∈ eo.keys.filter fun k => exposedExtraOptionKeys.contains k) ↔
        k ∈ eo.keys ∧ k ∈ exposedExtraOptionKeys)) ∧
    OnnxQuantization._run_for_config collisionExtraOptionsConfigExample
        ⟨⟨1, 17, 0⟩, false, .success, []⟩ =
      ([.warnExtraOptionsOverwritten ["EnableSubgraph"], .preprocessCall,
        .dataloaderFuncCall, .quantizeStaticCall collisionQuantizeKwargs], .ok ()) ∧
    (match lookupV collisionQuantizeKwargs "extra_options" with
     | some (.vDict ex) => ex.get "EnableSubgraph"
     | _ => none) = lookupV collisionExtraOptionsConfigExample "EnableSubgraph" := by
  refine ⟨?_, rfl, rfl⟩
  have hnd : exposedExtraOptionKeys.Nodup := by decide
  obtain ⟨rc2, ex2, heq, hin, _⟩ :=
    applyExposedOverrides_spec exposedExtraOptionKeys cfg eo hnd hexp
  cases eo with
  | nil =>
    obtain ⟨rc2, ex2, heq, hin, _⟩ :=
      applyExposedOverrides_spec exposedExtraOptionKeys cfg .nil hnd hexp
    refine ⟨rc2, ex2, ?_, hin, ?_⟩
    · simp [mergeExtraOptions, heo, truthy, Entries.isEmpty, Entries.keys, heq]
    · intro k
      simp [Entries.keys]
  | cons k0 v0 rest =>
    refine ⟨rc2, ex2, ?_, hin, ?_⟩
    · simp [mergeExtraOptions, heo, truthy, Entries.isEmpty, heq]
    · intro k
      simp [List.mem_filter, List.contains_iff_exists_mem_beq, eq_comm]

/-- Witness for C3 at the concrete colliding configuration: the merge succeeds, the
warning names exactly `EnableSubgraph`, and the effective options carry the exposed
parameter's resolved value for the colliding key. -/
theorem C3_exposed_values_override_extra_options_witness :
    ∃ rc ex, mergeExtraOptions collisionExtraOptionsConfigExample =
        .ok (rc, ex, ["EnableSubgraph"]) ∧
      ex.get "EnableSubgraph" = some (.vBool false) := by
  obtain ⟨⟨rc, ex, heq, hin, _⟩, _, _⟩ :=
    C3_exposed_values_override_extra_options collisionExtraOptionsConfigExample
      (.cons "EnableSubgraph" (.vBool true) (.cons "foo" (.vInt 3) .nil)) rfl
      (by intro k hk; fin_cases hk <;> exact ⟨_, rfl⟩)
  exact ⟨rc, ex, heq, hin "EnableSubgraph" (by decide)⟩

/-! ## C1, C2: run-configuration resolution over the declared tables -/

theorem lookupV_some_mem : ∀ (p : Config) (k : String) (v : Value),
    lookupV p k = some v → (k, v) ∈ p
  | [], _, _, h => by simp [lookupV] at h
  | (k1, v1) :: rest, k, v, h => by
    by_cases h1 : k1 = k
    · subst h1
      simp [lookupV] at h
      simp [h]
    · simp [lookupV, h1] at h
      exact List.mem_cons_of_mem _ (lookupV_some_mem rest k v h)

theorem sentinelFree_lookup (p : Config) (k : String) (v : Value)
    (hsf : sentinelFree p = true) (h : lookupV p k = some v) :
    v ≠ .vInvalid ∧ v ≠ .vIgnored := by
  have hm := lookupV_some_mem p k v h
  have hp := (List.all_eq_true.mp hsf) (k, v) hm
  simpa using hp

theorem lookupParam_of_mem : ∀ (tbl : ParamTable),
    (tbl.map Prod.fst).Nodup → ∀ k q, (k, q) ∈ tbl → lookupParam tbl k = some q
  | [], _, k, q, hm => absurd hm (List.not_mem_nil _)
  | (k0, q0) :: rest, hnd, k, q, hm => by
    rcases List.mem_cons.mp hm with he | hm2
    · rw [Prod.mk.injEq] at he
      obtain ⟨rfl, rfl⟩ := he
      simp [lookupParam]
    · have hk : k ∈ rest.map Prod.fst := List.mem_map_of_mem Prod.fst hm2
      rw [List.map_cons, List.nodup_cons] at hnd
      have hne : k0 ≠ k := fun he => hnd.1 (he ▸ hk)
      simp [lookupParam, hne]
      exact lookupParam_of_mem rest hnd.2 k q hm2

/-- A search point that assigns only searchable parameters leaves every
non-searchable declared parameter unassigned. -/
theorem assignsOnlySearchable_none (tbl : ParamTable) (p : Config) (k : String)
    (q : PassConfigParam) (hos : assignsOnlySearchable tbl p = true)
    (hlk : lookupParam tbl k = some q) (hq : q.searchableValues = none) :
    lookupV p k = none := by
  cases hlp : lookupV p k with
  | none => rfl
  | some v =>
    have hm := lookupV_some_mem p k v hlp
    have hp := (List.all_eq_true.mp hos) (k, v) hm
    rw [hlk] at hp
    simp [hq] at hp

/-- Classifier for parameters whose resolution can never reach the `INVALID`
sentinel under a sentinel-free point: a plain, non-`INVALID` default together with
either no search space or a plain categorical one. -/
def benignParam (ps : PassConfigParam) : Bool :=
  (match ps.defaultValue with
   | .plain v => !(v == Value.vInvalid)
   | .conditional _ _ => false) &&
  (match ps.searchableValues with
   | none => true
   | some (.categorical _) => true
   | some _ => false)

theorem benign_nonfail (p : Config) (name : String) (ps : PassConfigParam)
    (hb : benignParam ps = true) (hsf : sentinelFree p = true) :
    ∀ par key, resolveParamEntry p name ps ≠ .fail par key := by
  intro par key
  unfold benignParam at hb
  rw [Bool.and_eq_true] at hb
  obtain ⟨hb1, hb2⟩ := hb
  cases hdef : ps.defaultValue with
  | conditional parents support => rw [hdef] at hb1; simp at hb1
  | plain d =>
    rw [hdef] at hb1
    have hd : d ≠ Value.vInvalid := by simpa using hb1
    cases hlp : lookupV p name with
    | some v =>
      obtain ⟨hv1, hv2⟩ := sentinelFree_lookup p name v hsf hlp
      cases hs : ps.searchableValues with
      | none => simp [resolveParamEntry, hlp, hs, hv1, hv2]
      | some sp =>
        rw [hs] at hb2
        cases sp with
        | categorical vs =>
          simp [resolveParamEntry, hlp, hs, resolveSearchParameter, hv1, hv2]
        | conditional a b c => simp at hb2
        | invalidChoice => simp at hb2
        | ignoredChoice => simp at hb2
    | none =>
      by_cases hdi : d = Value.vIgnored <;>
        simp [resolveParamEntry, hlp, hdef, resolveDefaultExpr, hd, hdi]

/-- Every support key of a conditional search space begins with the value
`"static"` (the shape the static-optional wrapping produces). -/
def spSupportKeysHeadStatic : SPSupport → Bool
  | .nil => true
  | .cons k _ rest =>
    (k.head? == some (Value.vStr "static")) && spSupportKeysHeadStatic rest

/-- Every branch of a conditional default is a plain value other than the `INVALID`
sentinel. -/
def dSupportPlainSafe : DSupport → Bool
  | .nil => true
  | .cons _ b rest =>
    (match b with
     | .plain v => !(v == Value.vInvalid)
     | .conditional _ _ => false) && dSupportPlainSafe rest

/-- Classifier for parameters of the combined static/dynamic table whose resolution
can never reach the `INVALID` sentinel once `quant_mode = "dynamic"`: a plain
non-`INVALID` default or a conditional default with plain non-`INVALID` branches,
together with no search space, a plain categorical one, or a conditional search
space led by `quant_mode` whose support keys all begin with `"static"` and whose
fall-back is the ignored choice. -/
def dynSafeParam (ps : PassConfigParam) : Bool :=
  (match ps.defaultValue with
   | .plain v => !(v == Value.vInvalid)
   | .conditional _ support => dSupportPlainSafe support) &&
  (match ps.searchableValues with
   | none => true
   | some (.categorical _) => true
   | some (.conditional parents support dflt) =>
     (parents.head? == some "quant_mode") && spSupportKeysHeadStatic support &&
       (match dflt with | .ignoredChoice => true | _ => false)
   | some _ => false)

/-- No support key beginning with `"static"` matches a parent tuple beginning with
`"dynamic"`. -/
theorem resolveSupportBranch_static_dynamic (p : Config) :
    ∀ (S : SPSupport), spSupportKeysHeadStatic S = true →
      ∀ rest, resolveSupportBranch p (Value.vStr "dynamic" :: rest) S = none
  | .nil, _, rest => rfl
  | .cons k b tail, hs, rest => by
    rw [spSupportKeysHeadStatic, Bool.and_eq_true] at hs
    obtain ⟨hk, htail⟩ := hs
    cases k with
    | nil => simp at hk
    | cons k0 ktail =>
      simp [List.head?] at hk
      subst hk
      simp [resolveSupportBranch]
      exact resolveSupportBranch_static_dynamic p tail htail rest

/-- A conditional default whose branches are all plain non-`INVALID` values never
resolves to the `INVALID` sentinel. -/
theorem resolveDefaultBranch_plainSafe (p : Config) :
    ∀ (S : DSupport), dSupportPlainSafe S = true →
      ∀ key r, resolveDefaultBranch p key S = some r →
        ∀ par k2, r ≠ .invalid par k2
  | .nil, _, key, r, hr => by simp [resolveDefaultBranch] at hr
  | .cons k b tail, hs, key, r, hr => by
    simp only [dSupportPlainSafe, Bool.and_eq_true] at hs
    obtain ⟨hb, htail⟩ := hs
    rw [resolveDefaultBranch] at hr
    by_cases hk : (k == key) = true
    · rw [if_pos hk] at hr
      cases b with
      | conditional a c => simp at hb
      | plain v =>
        have hv : v ≠ Value.vInvalid := by simpa using hb
        simp only [Option.some.injEq] at hr
        subst hr
        intro par k2
        by_cases hvi : v = Value.vIgnored <;>
          simp [resolveDefaultExpr, hv, hvi]
    · rw [if_neg hk] at hr
      exact resolveDefaultBranch_plainSafe p tail htail key r hr

/-- Under a sentinel-free point with `quant_mode = "dynamic"`, no dyn-safe parameter
fails resolution with the `INVALID` sentinel. -/
theorem dynSafe_nonfail (p : Config) (name : String) (ps : PassConfigParam)
    (hb : dynSafeParam ps = true) (hsf : sentinelFree p = true)
    (hdyn : lookupV p "quant_mode" = some (.vStr "dynamic")) :
    ∀ par key, resolveParamEntry p name ps ≠ .fail par key := by
  intro par key
  unfold dynSafeParam at hb
  rw [Bool.and_eq_true] at hb
  obtain ⟨hb1, hb2⟩ := hb
  have hsearch : ∀ v, lookupV p name = some v → resolveParamEntry p name ps ≠ .fail par key := by
    intro v hlp
    obtain ⟨hv1, hv2⟩ := sentinelFree_lookup p name v hsf hlp
    cases hs : ps.searchableValues with
    | none => simp [resolveParamEntry, hlp, hs, hv1, hv2]
    | some sp =>
      rw [hs] at hb2
      cases sp with
      | categorical vs =>
        simp [resolveParamEntry, hlp, hs, resolveSearchParameter, hv1, hv2]
      | invalidChoice => simp at hb2
      | ignoredChoice => simp at hb2
      | conditional parents support dflt =>
        rw [Bool.and_eq_true, Bool.and_eq_true] at hb2
        obtain ⟨⟨hp1, hp2⟩, hp3⟩ := hb2
        cases parents with
        | nil => simp at hp1
        | cons p0 ptail =>
          simp [List.head?] at hp1
          subst hp1
          cases dflt <;> simp at hp3
          simp [resolveParamEntry, hlp, hs, resolveSearchParameter, hdyn,
            resolveSupportBranch_static_dynamic p support hp2]
  cases hlp : lookupV p name with
  | some v => exact hsearch v hlp
  | none =>
    cases hdef : ps.defaultValue with
    | plain d =>
      rw [hdef] at hb1
      have hd : d ≠ Value.vInvalid := by simpa using hb1
      by_cases hdi : d = Value.vIgnored <;>
        simp [resolveParamEntry, hlp, hdef, resolveDefaultExpr, hd, hdi]
    | conditional parents support =>
      rw [hdef] at hb1
      simp only [resolveParamEntry, hlp, hdef]
      cases hr : resolveDefaultBranch p
          (parents.map fun q => (lookupV p q).getD .vNone) support with
      | none => simp [resolveDefaultExpr, hr]
      | some r =>
        have hni := resolveDefaultBranch_plainSafe p support hb1 _ r hr
        cases r with
        | invalid a b => exact absurd rfl (hni a b)
        | val v => simp [resolveDefaultExpr, hr]
        | ignored => simp [resolveDefaultExpr, hr]

/-- Resolution fails with the first parameter, in table order, whose entry resolution
reaches the `INVALID` sentinel: a prefix of non-failing parameters is skipped. -/
theorem resolveRunConfig_error_at (p : Config) :
    ∀ (pre : ParamTable) (name : String) (ps : PassConfigParam) (post : ParamTable)
      (par : List String) (key : List Value),
      (∀ n q, (n, q) ∈ pre → ∀ pr k, resolveParamEntry p n q ≠ .fail pr k) →
      resolveParamEntry p name ps = .fail par key →
      resolveRunConfig (pre ++ (name, ps) :: post) p = .error ⟨name, par, key⟩
  | [], name, ps, post, par, key, _, hfail => by
    simp [resolveRunConfig, hfail]
  | (n0, q0) :: rest, name, ps, post, par, key, hpre, hfail => by
    have ih := resolveRunConfig_error_at p rest name ps post par key
      (fun n q hm => hpre n q (List.mem_cons_of_mem _ hm)) hfail
    cases hr : resolveParamEntry p n0 q0 with
    | fail pr k => exact absurd hr (hpre n0 q0 (by simp) pr k)
    | drop => simp [resolveRunConfig, hr, ih]
    | keep v => simp [resolveRunConfig, hr, ih]

/-- Resolution succeeds when no declared parameter fails. -/
theorem resolveRunConfig_ok (p : Config) :
    ∀ (table : ParamTable),
      (∀ n q, (n, q) ∈ table → ∀ pr k, resolveParamEntry p n q ≠ .fail pr k) →
      ∃ cfg, resolveRunConfig table p = .ok cfg
  | [], _ => ⟨[], rfl⟩
  | (n0, q0) :: rest, hnf => by
    obtain ⟨cfg, hcfg⟩ :=
      resolveRunConfig_ok p rest (fun n q hm => hnf n q (List.mem_cons_of_mem _ hm))
    cases hr : resolveParamEntry p n0 q0 with
    | fail pr k => exact absurd hr (hnf n0 q0 (by simp) pr k)
    | drop => exact ⟨cfg, by simp [resolveRunConfig, hr, hcfg]⟩
    | keep v => exact ⟨(n0, v) :: cfg, by simp [resolveRunConfig, hr, hcfg]⟩

/-- A parameter all of whose table entries resolve to the `IGNORED` sentinel is
absent from the effective configuration — removed, not set to a neutral value. -/
theorem resolveRunConfig_absent (p : Config) (key : String) :
    ∀ (table : ParamTable) (cfg : Config),
      resolveRunConfig table p = .ok cfg →
      (∀ q, (key, q) ∈ table → resolveParamEntry p key q = .drop) →
      lookupV cfg key = none
  | [], cfg, hok, _ => by
    simp [resolveRunConfig] at hok
    subst hok
    rfl
  | (n0, q0) :: rest, cfg, hok, hdrop => by
    cases hr : resolveParamEntry p n0 q0 with
    | fail pr k => simp [resolveRunConfig, hr] at hok
    | drop =>
      rw [resolveRunConfig, hr] at hok
      exact resolveRunConfig_absent p key rest cfg hok
        (fun q hm => hdrop q (List.mem_cons_of_mem _ hm))
    | keep v =>
      rw [resolveRunConfig, hr] at hok
      cases hrest : resolveRunConfig rest p with
      | error e => rw [hrest] at hok; simp at hok
      | ok cfg2 =>
        rw [hrest] at hok
        simp only [Except.ok.injEq] at hok
        subst hok
        by_cases hk : n0 = key
        · subst hk
          have hd := hdrop q0 (by simp)
          rw [hd] at hr
          exact absurd hr (fun h => ParamResolution.noConfusion h)
        · rw [lookupV, if_neg (by simpa using hk)]
          exact resolveRunConfig_absent p key rest cfg2 hrest
            (fun q hm => hdrop q (List.mem_cons_of_mem _ hm))

/-- The `activation_type` descriptor of `_static_optional_config`: the parameter whose
search space is the `Conditional` declaring `("QOperator", "QInt8")` invalid. -/
def activationTypeSpec : PassConfigParam :=
  (lookupParam _static_optional_config "activation_type").getD {}

/-- Claim C1: for every search point assigning `quant_format = "QOperator"` and
`weight_type = "QInt8"` in which `activation_type` is resolved from the Conditional
declaring that parent tuple `INVALID` (i.e. the point assigns `activation_type` from
its search space), the whole run-configuration resolution over the static table fails
with an `InvalidSearchPoint` error naming the offending parameter `activation_type`
and the blocking parent combination `("QOperator", "QInt8")`, rather than producing an
effective configuration. -/
theorem C1_invalid_parent_combination_fails_resolution (p : Config)
    (hsf : sentinelFree p = true)
    (hqf : lookupV p "quant_format" = some (.vStr "QOperator"))
    (hwt : lookupV p "weight_type" = some (.vStr "QInt8"))
    (hact : ∃ av, lookupV p "activation_type" = some av) :
    resolveRunConfig (OnnxStaticQuantization._default_config ⟨"CPUExecutionProvider"⟩) p =
      .error ⟨"activation_type", ["quant_format", "weight_type"],
              [.vStr "QOperator", .vStr "QInt8"]⟩ := by
  obtain ⟨av, hact⟩ := hact
  have htbl : OnnxStaticQuantization._default_config ⟨"CPUExecutionProvider"⟩ =
      (OnnxStaticQuantization._default_config ⟨"CPUExecutionProvider"⟩).take 15 ++
        ("activation_type", activationTypeSpec) ::
        (OnnxStaticQuantization._default_config ⟨"CPUExecutionProvider"⟩).drop 16 := rfl
  rw [htbl]
  apply resolveRunConfig_error_at
  · intro n q hm pr k
    refine benign_nonfail p n q ?_ hsf pr k
    have hall : ((OnnxStaticQuantization._default_config ⟨"CPUExecutionProvider"⟩).take 15).all
        (fun e => benignParam e.2) = true := by decide
    simpa using List.all_eq_true.mp hall (n, q) hm
  · simp [resolveParamEntry, hact, activationTypeSpec, lookupParam,
      _static_optional_config, resolveSearchParameter, resolveSupportBranch,
      SPSupport.ofList, Conditional.get_invalid_choice, Conditional.get_ignored_choice,
      List.map, Option.getD, hqf, hwt]

/-- Witness for C1 at the concrete search point of the spec's scenario. -/
theorem C1_invalid_parent_combination_fails_resolution_witness :
    resolveRunConfig (OnnxStaticQuantization._default_config ⟨"CPUExecutionProvider"⟩)
        [("quant_format", .vStr "QOperator"), ("weight_type", .vStr "QInt8"),
         ("activation_type", .vStr "QUInt8")] =
      .error ⟨"activation_type", ["quant_format", "weight_type"],
              [.vStr "QOperator", .vStr "QInt8"]⟩ :=
  C1_invalid_parent_combination_fails_resolution _ rfl rfl rfl ⟨.vStr "QUInt8", rfl⟩

/-- The descriptor a name carries in the combined static/dynamic table. -/
def quantTableSpec (k : String) : PassConfigParam :=
  (lookupParam quantizationTable k).getD {}

/-- The four static-only optional parameter names, whose defaults and search spaces
are wrapped on `quant_mode` in the combined table. -/
def staticOptionalKeys : List String := _static_optional_config.map Prod.fst

example : staticOptionalKeys =
  ["calibrate_method", "quant_format", "activation_type", "prepare_qnn_config"] := rfl

/-- Under a sentinel-free point with `quant_mode = "dynamic"`, each wrapped
static-only parameter of the combined table resolves to the `IGNORED` sentinel and is
dropped, whether or not the point assigns it from its (ignored) search space —
`prepare_qnn_config`, which exposes no search space, is unassigned in any search
point that assigns only searchable parameters. -/
theorem staticOptional_drops_when_dynamic (p : Config)
    (hos : assignsOnlySearchable quantizationTable p = true)
    (hdyn : lookupV p "quant_mode" = some (.vStr "dynamic")) :
    ∀ k, k ∈ staticOptionalKeys →
      resolveParamEntry p k (quantTableSpec k) = .drop := by
  intro k hk
  fin_cases hk
  · cases hlp : lookupV p "calibrate_method" <;>
      simp [resolveParamEntry, hlp, quantTableSpec, quantizationTable,
        OnnxQuantization._default_config, lookupParam, wrapStaticOptionalParam,
        ConditionalDefault.get_ignored_choice, Conditional.get_ignored_choice,
        DSupport.ofList, SPSupport.ofList, resolveSearchParameter,
        resolveSupportBranch, resolveDefaultExpr, resolveDefaultBranch, hdyn,
        List.map, Option.getD]
  · cases hlp : lookupV p "quant_format" <;>
      simp [resolveParamEntry, hlp, quantTableSpec, quantizationTable,
        OnnxQuantization._default_config, lookupParam, wrapStaticOptionalParam,
        ConditionalDefault.get_ignored_choice, Conditional.get_ignored_choice,
        DSupport.ofList, SPSupport.ofList, resolveSearchParameter,
        resolveSupportBranch, resolveDefaultExpr, resolveDefaultBranch, hdyn,
        List.map, Option.getD]
  · cases hlp : lookupV p "activation_type" with
    | none =>
      simp [resolveParamEntry, hlp, quantTableSpec, quantizationTable,
        OnnxQuantization._default_config, lookupParam, wrapStaticOptionalParam,
        ConditionalDefault.get_ignored_choice, Conditional.get_ignored_choice,
        DSupport.ofList, SPSupport.ofList, resolveDefaultExpr,
        resolveDefaultBranch, hdyn, List.map, Option.getD]
    | some v =>
      have hbr := resolveSupportBranch_static_dynamic p
        (SPSupport.prependKey (Value.vStr "static")
          (SPSupport.cons [Value.vStr "QDQ", Value.vStr "QInt8"]
            (SearchParameter.categorical [Value.vStr "QInt8"])
            (SPSupport.cons [Value.vStr "QDQ", Value.vStr "QUInt8"]
              (SearchParameter.categorical [Value.vStr "QUInt8"])
              (SPSupport.cons [Value.vStr "QOperator", Value.vStr "QUInt8"]
                (SearchParameter.categorical [Value.vStr "QUInt8"])
                (SPSupport.cons [Value.vStr "QOperator", Value.vStr "QInt8"]
                  Conditional.get_invalid_choice SPSupport.nil)))))
        (by decide)
      simp [resolveParamEntry, hlp, quantTableSpec, quantizationTable,
        OnnxQuantization._default_config, lookupParam, wrapStaticOptionalParam,
        ConditionalDefault.get_ignored_choice, Conditional.get_ignored_choice,
        DSupport.ofList, SPSupport.ofList, resolveSearchParameter,
        hdyn, List.map, Option.getD, hbr]
  · have hun : lookupV p "prepare_qnn_config" = none :=
      assignsOnlySearchable_none quantizationTable p "prepare_qnn_config"
        (quantTableSpec "prepare_qnn_config") hos rfl rfl
    simp [resolveParamEntry, hun, quantTableSpec, quantizationTable,
      OnnxQuantization._default_config, lookupParam, wrapStaticOptionalParam,
      ConditionalDefault.get_ignored_choice, Conditional.get_ignored_choice,
      DSupport.ofList, SPSupport.ofList, resolveDefaultExpr,
      resolveDefaultBranch, hdyn, List.map, Option.getD]

/-- Claim C2: resolving the combined static/dynamic table with
`quant_mode = "dynamic"` succeeds and produces an effective configuration containing
none of the static-only optional parameters: their wrapped defaults and search spaces
resolve to the `IGNORED` sentinel under the `("dynamic",)` parent key, and `IGNORED`
entries are removed from the result rather than set to a neutral value. -/
theorem C2_dynamic_mode_drops_static_only_parameters (p : Config)
    (hsf : sentinelFree p = true)
    (hos : assignsOnlySearchable quantizationTable p = true)
    (hdyn : lookupV p "quant_mode" = some (.vStr "dynamic")) :
    ∃ cfg, resolveRunConfig quantizationTable p = .ok cfg ∧
      ∀ k, k ∈ staticOptionalKeys → lookupV cfg k = none := by
  have hnf : ∀ n q, (n, q) ∈ quantizationTable →
      ∀ pr k, resolveParamEntry p n q ≠ .fail pr k := by
    intro n q hm pr k
    refine dynSafe_nonfail p n q ?_ hsf hdyn pr k
    have hall : quantizationTable.all (fun e => dynSafeParam e.2) = true := by decide
    simpa using List.all_eq_true.mp hall (n, q) hm
  obtain ⟨cfg, hok⟩ := resolveRunConfig_ok p quantizationTable hnf
  have hnd : (quantizationTable.map Prod.fst).Nodup := by decide
  refine ⟨cfg, hok, ?_⟩
  intro k hk
  refine resolveRunConfig_absent p k quantizationTable cfg hok ?_
  intro q hm
  have hlq := lookupParam_of_mem quantizationTable hnd k q hm
  have hq : q = quantTableSpec k := by
    have : lookupParam quantizationTable k = some (quantTableSpec k) := by
      fin_cases hk <;> rfl
    rw [this] at hlq
    exact (Option.some.injEq _ _ ▸ hlq).symm
  rw [hq]
  exact staticOptional_drops_when_dynamic p hos hdyn k hk

/-- Witness for C2 at the concrete dynamic search point. -/
theorem C2_dynamic_mode_drops_static_only_parameters_witness :
    ∃ cfg, resolveRunConfig quantizationTable [("quant_mode", .vStr "dynamic")] = .ok cfg ∧
      ∀ k, k ∈ staticOptionalKeys → lookupV cfg k = none :=
  C2_dynamic_mode_drops_static_only_parameters [("quant_mode", .vStr "dynamic")]
    rfl rfl rfl

end OliveQuant
